import Mathlib

/-!
Shallow embedding of the validibot-shared envelope contract
(pydantic models in validibot_shared/validations/envelopes.py,
validibot_shared/fmi/envelopes.py, validibot_shared/fmi/models.py,
validibot_shared/energyplus/envelopes.py and
validibot_shared/energyplus/models.py).

Raw documents are modelled as a JSON value type; each pydantic model
becomes a Lean structure together with a decoder from JSON that applies
exactly the declarative constraints of the source (required fields,
defaults, numeric ranges, closed enums, and the extra="forbid" versus
default extra="ignore" behaviour of each model). Numbers are modelled
as rationals. Datetime parsing and HttpUrl syntax checking are performed
by the external pydantic library, not by this repository, so those two
field types are modelled as plain optional strings.
-/

/-- A JSON value, as produced by parsing a wire document. -/
inductive Json where
  | null
  | bool (b : Bool)
  | num (q : ℚ)
  | str (s : String)
  | arr (elems : List Json)
  | obj (fields : List (String × Json))

/-- Look up a key in a JSON object field list (first occurrence). -/
def lookupJ (o : List (String × Json)) (k : String) : Option Json :=
  match o with
  | [] => none
  | (k₂, v) :: rest => if k₂ = k then some v else lookupJ rest k

/-- extra="forbid": every present key must be a declared field name. -/
def keysSubset (o : List (String × Json)) (allowed : List String) : Bool :=
  o.all (fun kv => allowed.contains kv.1)

/-! ### Field readers

Each pydantic field kind becomes a total reader from the looked-up
`Option Json` to an `Option` of the field value: `none` is a validation
failure, `some` carries the validated value. -/

/-- A string value (pydantic str). -/
def asStr : Json → Option String
  | .str s => some s
  | _ => none

/-- A boolean value (pydantic bool). -/
def asBool : Json → Option Bool
  | .bool b => some b
  | _ => none

/-- An integer value (pydantic int; integral numerics accepted). -/
def asInt : Json → Option ℤ
  | .num q => if q.den = 1 then some q.num else none
  | _ => none

/-- A float value (pydantic float; ints accepted). -/
def asRat : Json → Option ℚ
  | .num q => some q
  | _ => none

/-- A float value constrained by Field(ge=0). -/
def asNonNegRat : Json → Option ℚ
  | .num q => if 0 ≤ q then some q else none
  | _ => none

/-- A float value constrained by Field(gt=0). -/
def asPosRat : Json → Option ℚ
  | .num q => if 0 < q then some q else none
  | _ => none

/-- An int value constrained by Field(ge=0) (NonNegInt). -/
def asNonNegInt (j : Json) : Option ℤ :=
  (asInt j).bind (fun n => if 0 ≤ n then some n else none)

/-- An open map value (dict[str, Any]). -/
def asObjMap : Json → Option (List (String × Json))
  | .obj m => some m
  | _ => none

/-- A homogeneous list value (list[T]). -/
def asList {α : Type} (dec : Json → Option α) : Json → Option (List α)
  | .arr xs => xs.mapM dec
  | _ => none

/-- A required field: absent is a failure, present must decode. -/
def req {α : Type} (dec : Json → Option α) (x : Option Json) : Option α :=
  x.bind dec

/-- An optional field defaulting to None: absent or null decodes to
none, anything else must decode. -/
def opt {α : Type} (dec : Json → Option α) : Option Json → Option (Option α)
  | none => some none
  | some .null => some none
  | some v => (dec v).map some

/-- A field with a non-None default: absent takes the default, present
(including null) must decode. -/
def fieldD {α : Type} (d : α) (dec : Json → Option α) : Option Json → Option α
  | none => some d
  | some v => dec v

/-! ## Shared enums (validations/envelopes.py) -/

/-- Severity level for validation messages. -/
inductive Severity where
  | INFO
  | WARNING
  | ERROR
deriving DecidableEq

/-- Decode a Severity from its wire string. -/
def severityOfString (s : String) : Option Severity :=
  if s = "INFO" then some .INFO
  else if s = "WARNING" then some .WARNING
  else if s = "ERROR" then some .ERROR
  else none

/-- Canonical validator types used across Django and validator containers. -/
inductive ValidatorType where
  | BASIC
  | JSON_SCHEMA
  | XML_SCHEMA
  | ENERGYPLUS
  | FMU
  | CUSTOM_VALIDATOR
  | AI_ASSIST
deriving DecidableEq

/-- Decode a ValidatorType from its wire string. -/
def validatorTypeOfString (s : String) : Option ValidatorType :=
  if s = "BASIC" then some .BASIC
  else if s = "JSON_SCHEMA" then some .JSON_SCHEMA
  else if s = "XML_SCHEMA" then some .XML_SCHEMA
  else if s = "ENERGYPLUS" then some .ENERGYPLUS
  else if s = "FMU" then some .FMU
  else if s = "CUSTOM_VALIDATOR" then some .CUSTOM_VALIDATOR
  else if s = "AI_ASSIST" then some .AI_ASSIST
  else none

/-- Supported MIME types for file inputs. -/
inductive SupportedMimeType where
  | APPLICATION_XML
  | TEXT_XML
  | ENERGYPLUS_IDF
  | ENERGYPLUS_EPJSON
  | ENERGYPLUS_EPW
  | FMU
deriving DecidableEq

/-- Decode a SupportedMimeType from its wire string. -/
def mimeTypeOfString (s : String) : Option SupportedMimeType :=
  if s = "application/xml" then some .APPLICATION_XML
  else if s = "text/xml" then some .TEXT_XML
  else if s = "application/vnd.energyplus.idf" then some .ENERGYPLUS_IDF
  else if s = "application/vnd.energyplus.epjson" then some .ENERGYPLUS_EPJSON
  else if s = "application/vnd.energyplus.epw" then some .ENERGYPLUS_EPW
  else if s = "application/vnd.fmi.fmu" then some .FMU
  else none

/-- Validation output status. -/
inductive ValidationStatus where
  | SUCCESS
  | FAILED_VALIDATION
  | FAILED_RUNTIME
  | CANCELLED
deriving DecidableEq

/-- Decode a ValidationStatus from its wire string. -/
def validationStatusOfString (s : String) : Option ValidationStatus :=
  if s = "success" then some .SUCCESS
  else if s = "failed_validation" then some .FAILED_VALIDATION
  else if s = "failed_runtime" then some .FAILED_RUNTIME
  else if s = "cancelled" then some .CANCELLED
  else none

/-! ## Input-side sub-entities (validations/envelopes.py) -/

/-- A user-submitted file input for the validator (InputFileItem). -/
structure InputFileItem where
  name : String
  mime_type : SupportedMimeType
  role : Option String
  uri : String
deriving DecidableEq

def inputFileItemKeys : List String := ["name", "mime_type", "role", "uri"]

/-- Decode an InputFileItem; model_config extra="forbid". -/
def decodeInputFileItem (j : Json) : Option InputFileItem :=
  match j with
  | .obj o =>
    if keysSubset o inputFileItemKeys then do
      let name ← req asStr (lookupJ o "name")
      let mime_type ← req (fun v => (asStr v).bind mimeTypeOfString)
        (lookupJ o "mime_type")
      let role ← opt asStr (lookupJ o "role")
      let uri ← req asStr (lookupJ o "uri")
      pure ⟨name, mime_type, role, uri⟩
    else none
  | _ => none

/-- A resource file needed by the validator (ResourceFileItem). -/
structure ResourceFileItem where
  id : String
  type : String
  uri : String
deriving DecidableEq

def resourceFileItemKeys : List String := ["id", "type", "uri"]

/-- Decode a ResourceFileItem; model_config extra="forbid". -/
def decodeResourceFileItem (j : Json) : Option ResourceFileItem :=
  match j with
  | .obj o =>
    if keysSubset o resourceFileItemKeys then do
      let id ← req asStr (lookupJ o "id")
      let type ← req asStr (lookupJ o "type")
      let uri ← req asStr (lookupJ o "uri")
      pure ⟨id, type, uri⟩
    else none
  | _ => none

/-- Information about the validator being executed (ValidatorInfo). -/
structure ValidatorInfo where
  id : String
  type : ValidatorType
  version : String
deriving DecidableEq

def validatorInfoKeys : List String := ["id", "type", "version"]

/-- Decode a ValidatorInfo; model_config extra="forbid". -/
def decodeValidatorInfo (j : Json) : Option ValidatorInfo :=
  match j with
  | .obj o =>
    if keysSubset o validatorInfoKeys then do
      let id ← req asStr (lookupJ o "id")
      let type ← req (fun v => (asStr v).bind validatorTypeOfString)
        (lookupJ o "type")
      let version ← req asStr (lookupJ o "version")
      pure ⟨id, type, version⟩
    else none
  | _ => none

/-- Information about the organization running the validation
(OrganizationInfo). -/
structure OrganizationInfo where
  id : String
  name : String
deriving DecidableEq

def organizationInfoKeys : List String := ["id", "name"]

/-- Decode an OrganizationInfo; model_config extra="forbid". -/
def decodeOrganizationInfo (j : Json) : Option OrganizationInfo :=
  match j with
  | .obj o =>
    if keysSubset o organizationInfoKeys then do
      let id ← req asStr (lookupJ o "id")
      let name ← req asStr (lookupJ o "name")
      pure ⟨id, name⟩
    else none
  | _ => none

/-- Information about the workflow and step being executed (WorkflowInfo). -/
structure WorkflowInfo where
  id : String
  step_id : String
  step_name : Option String
deriving DecidableEq

def workflowInfoKeys : List String := ["id", "step_id", "step_name"]

/-- Decode a WorkflowInfo; model_config extra="forbid". -/
def decodeWorkflowInfo (j : Json) : Option WorkflowInfo :=
  match j with
  | .obj o =>
    if keysSubset o workflowInfoKeys then do
      let id ← req asStr (lookupJ o "id")
      let step_id ← req asStr (lookupJ o "step_id")
      let step_name ← opt asStr (lookupJ o "step_name")
      pure ⟨id, step_id, step_name⟩
    else none
  | _ => none

/-- Execution context and callback information (ExecutionContext).
The callback_url field is an HttpUrl validated by the external pydantic
library; its syntax check is outside this repository and it is modelled
as an optional plain string. -/
structure ExecutionContext where
  callback_id : Option String
  callback_url : Option String
  skip_callback : Bool
  execution_bundle_uri : String
  timeout_seconds : ℤ
  tags : List String
deriving DecidableEq

def executionContextKeys : List String :=
  ["callback_id", "callback_url", "skip_callback", "execution_bundle_uri",
   "timeout_seconds", "tags"]

/-- Decode an ExecutionContext; model_config extra="forbid";
skip_callback defaults to False, timeout_seconds defaults to 3600 and
carries no range constraint, tags defaults to []. -/
def decodeExecutionContext (j : Json) : Option ExecutionContext :=
  match j with
  | .obj o =>
    if keysSubset o executionContextKeys then do
      let callback_id ← opt asStr (lookupJ o "callback_id")
      let callback_url ← opt asStr (lookupJ o "callback_url")
      let skip_callback ← fieldD false asBool (lookupJ o "skip_callback")
      let execution_bundle_uri ← req asStr (lookupJ o "execution_bundle_uri")
      let timeout_seconds ← fieldD 3600 asInt (lookupJ o "timeout_seconds")
      let tags ← fieldD [] (asList asStr) (lookupJ o "tags")
      pure ⟨callback_id, callback_url, skip_callback, execution_bundle_uri,
            timeout_seconds, tags⟩
    else none
  | _ => none

/-! ## Input envelopes (validations/envelopes.py, fmi/envelopes.py,
energyplus/envelopes.py) -/

/-- The base-envelope fields shared by ValidationInputEnvelope and every
family input envelope, except the family-narrowed inputs slot. -/
structure InputEnvelopeCommon where
  schema_version : String
  run_id : String
  validator : ValidatorInfo
  org : OrganizationInfo
  workflow : WorkflowInfo
  input_files : List InputFileItem
  resource_files : List ResourceFileItem
  context : ExecutionContext
deriving DecidableEq

def inputEnvelopeKeys : List String :=
  ["schema_version", "run_id", "validator", "org", "workflow",
   "input_files", "resource_files", "inputs", "context"]

/-- schema_version: Literal["validibot.input.v1"] = "validibot.input.v1". -/
def inputSchemaVersionField : Option Json → Option String :=
  fieldD "validibot.input.v1"
    (fun j => (asStr j).bind
      (fun s => if s = "validibot.input.v1" then some s else none))

/-- Decode every base field of an input envelope except the inputs slot.
The extra="forbid" key check is done by each envelope decoder. -/
def decodeInputCommon (o : List (String × Json)) : Option InputEnvelopeCommon := do
  let schema_version ← inputSchemaVersionField (lookupJ o "schema_version")
  let run_id ← req asStr (lookupJ o "run_id")
  let validator ← req decodeValidatorInfo (lookupJ o "validator")
  let org ← req decodeOrganizationInfo (lookupJ o "org")
  let workflow ← req decodeWorkflowInfo (lookupJ o "workflow")
  let input_files ← fieldD [] (asList decodeInputFileItem)
    (lookupJ o "input_files")
  let resource_files ← fieldD [] (asList decodeResourceFileItem)
    (lookupJ o "resource_files")
  let context ← req decodeExecutionContext (lookupJ o "context")
  pure ⟨schema_version, run_id, validator, org, workflow, input_files,
        resource_files, context⟩

/-- Base input envelope (ValidationInputEnvelope): the inputs slot is an
open map, dict[str, Any], defaulting to the empty map. -/
structure ValidationInputEnvelope where
  base : InputEnvelopeCommon
  inputs : List (String × Json)

/-- Decode a ValidationInputEnvelope; model_config extra="forbid". -/
def decodeValidationInputEnvelope (j : Json) : Option ValidationInputEnvelope :=
  match j with
  | .obj o =>
    if keysSubset o inputEnvelopeKeys then do
      let base ← decodeInputCommon o
      let inputs ← fieldD [] asObjMap (lookupJ o "inputs")
      pure ⟨base, inputs⟩
    else none
  | _ => none

/-! ## FMI family models (fmi/envelopes.py) -/

/-- Simulation configuration for FMI runs (FMISimulationConfig).
No model_config: pydantic defaults to extra="ignore". -/
structure FMISimulationConfig where
  start_time : ℚ
  stop_time : ℚ
  step_size : ℚ
  tolerance : Option ℚ
deriving DecidableEq

/-- The default FMISimulationConfig (all fields defaulted). -/
def FMISimulationConfig.default : FMISimulationConfig :=
  ⟨0, 1, (1 : ℚ)/100, none⟩

/-- Decode an FMISimulationConfig: start_time ge=0 default 0.0,
stop_time gt=0 default 1.0, step_size gt=0 default 0.01,
tolerance gt=0 default None. Unknown fields are ignored (no
extra="forbid" on this model). -/
def decodeFMISimulationConfig (j : Json) : Option FMISimulationConfig :=
  match j with
  | .obj o => do
    let start_time ← fieldD 0 asNonNegRat (lookupJ o "start_time")
    let stop_time ← fieldD 1 asPosRat (lookupJ o "stop_time")
    let step_size ← fieldD ((1 : ℚ)/100) asPosRat (lookupJ o "step_size")
    let tolerance ← opt asPosRat (lookupJ o "tolerance")
    pure ⟨start_time, stop_time, step_size, tolerance⟩
  | _ => none

/-- Encode an FMISimulationConfig back to a JSON document (model_dump). -/
def encodeFMISimulationConfig (c : FMISimulationConfig) : Json :=
  .obj [("start_time", .num c.start_time),
        ("stop_time", .num c.stop_time),
        ("step_size", .num c.step_size),
        ("tolerance", match c.tolerance with
                      | none => .null
                      | some t => .num t)]

/-- Resolved inputs plus simulation config, keyed by catalog slugs
(FMIInputs). No model_config: pydantic defaults to extra="ignore". -/
structure FMIInputs where
  input_values : List (String × Json)
  simulation : FMISimulationConfig
  output_variables : List String

/-- Decode an FMIInputs: input_values default {}, simulation
default_factory=FMISimulationConfig, output_variables default [].
Unknown fields are ignored. -/
def decodeFMIInputs (j : Json) : Option FMIInputs :=
  match j with
  | .obj o => do
    let input_values ← fieldD [] asObjMap (lookupJ o "input_values")
    let simulation ← fieldD FMISimulationConfig.default
      decodeFMISimulationConfig (lookupJ o "simulation")
    let output_variables ← fieldD [] (asList asStr)
      (lookupJ o "output_variables")
    pure ⟨input_values, simulation, output_variables⟩
  | _ => none

/-- FMI execution results keyed by catalog slugs (FMIOutputs).
No model_config: pydantic defaults to extra="ignore". -/
structure FMIOutputs where
  output_values : List (String × Json)
  fmu_guid : Option String
  fmi_version : Option String
  model_name : Option String
  execution_seconds : ℚ
  simulation_time_reached : ℚ
  fmu_log : Option String

/-- Decode an FMIOutputs: execution_seconds ge=0 required,
simulation_time_reached ge=0 required. Unknown fields are ignored. -/
def decodeFMIOutputs (j : Json) : Option FMIOutputs :=
  match j with
  | .obj o => do
    let output_values ← fieldD [] asObjMap (lookupJ o "output_values")
    let fmu_guid ← opt asStr (lookupJ o "fmu_guid")
    let fmi_version ← opt asStr (lookupJ o "fmi_version")
    let model_name ← opt asStr (lookupJ o "model_name")
    let execution_seconds ← req asNonNegRat (lookupJ o "execution_seconds")
    let simulation_time_reached ← req asNonNegRat
      (lookupJ o "simulation_time_reached")
    let fmu_log ← opt asStr (lookupJ o "fmu_log")
    pure ⟨output_values, fmu_guid, fmi_version, model_name,
          execution_seconds, simulation_time_reached, fmu_log⟩
  | _ => none

/-- Input envelope for FMI validator containers (FMIInputEnvelope):
narrows the inputs slot to FMIInputs, with no default, so it is required. -/
structure FMIInputEnvelope where
  base : InputEnvelopeCommon
  inputs : FMIInputs

/-- Decode an FMIInputEnvelope; inherits extra="forbid" from the base. -/
def decodeFMIInputEnvelope (j : Json) : Option FMIInputEnvelope :=
  match j with
  | .obj o =>
    if keysSubset o inputEnvelopeKeys then do
      let base ← decodeInputCommon o
      let inputs ← req decodeFMIInputs (lookupJ o "inputs")
      pure ⟨base, inputs⟩
    else none
  | _ => none

/-! ## EnergyPlus family models (energyplus/models.py,
energyplus/envelopes.py) -/

/-- How to invoke EnergyPlus (InvocationMode = Literal["python_api", "cli"]). -/
inductive InvocationMode where
  | python_api
  | cli
deriving DecidableEq

/-- Decode an InvocationMode from its wire string. -/
def invocationModeOfString (s : String) : Option InvocationMode :=
  if s = "python_api" then some .python_api
  else if s = "cli" then some .cli
  else none

/-- Encode an InvocationMode to its wire string. -/
def invocationModeToString : InvocationMode → String
  | .python_api => "python_api"
  | .cli => "cli"

/-- EnergyPlus simulation configuration parameters (EnergyPlusInputs). -/
structure EnergyPlusInputs where
  timestep_per_hour : ℤ
  run_period_days : Option ℤ
  invocation_mode : InvocationMode
deriving DecidableEq

def energyPlusInputsKeys : List String :=
  ["timestep_per_hour", "run_period_days", "invocation_mode"]

/-- The timestep_per_hour field reader: int with ge=1 and le=60. -/
def asTimestepPerHour (j : Json) : Option ℤ :=
  (asInt j).bind (fun n => if 1 ≤ n ∧ n ≤ 60 then some n else none)

/-- Decode an EnergyPlusInputs; model_config extra="forbid";
timestep_per_hour default 4 with ge=1 and le=60; run_period_days
optional with no range constraint; invocation_mode default "cli". -/
def decodeEnergyPlusInputs (j : Json) : Option EnergyPlusInputs :=
  match j with
  | .obj o =>
    if keysSubset o energyPlusInputsKeys then do
      let timestep_per_hour ← fieldD 4 asTimestepPerHour
        (lookupJ o "timestep_per_hour")
      let run_period_days ← opt asInt (lookupJ o "run_period_days")
      let invocation_mode ← fieldD InvocationMode.cli
        (fun v => (asStr v).bind invocationModeOfString)
        (lookupJ o "invocation_mode")
      pure ⟨timestep_per_hour, run_period_days, invocation_mode⟩
    else none
  | _ => none

/-- Encode an EnergyPlusInputs back to a JSON document (model_dump). -/
def encodeEnergyPlusInputs (e : EnergyPlusInputs) : Json :=
  .obj [("timestep_per_hour", .num (e.timestep_per_hour : ℚ)),
        ("run_period_days", match e.run_period_days with
                            | none => .null
                            | some n => .num (n : ℚ)),
        ("invocation_mode", .str (invocationModeToString e.invocation_mode))]

/-- EnergyPlus-specific input envelope (EnergyPlusInputEnvelope):
narrows the inputs slot to EnergyPlusInputs, required. -/
structure EnergyPlusInputEnvelope where
  base : InputEnvelopeCommon
  inputs : EnergyPlusInputs

/-- Decode an EnergyPlusInputEnvelope; inherits extra="forbid". -/
def decodeEnergyPlusInputEnvelope (j : Json) : Option EnergyPlusInputEnvelope :=
  match j with
  | .obj o =>
    if keysSubset o inputEnvelopeKeys then do
      let base ← decodeInputCommon o
      let inputs ← req decodeEnergyPlusInputs (lookupJ o "inputs")
      pure ⟨base, inputs⟩
    else none
  | _ => none

/-- EnergyPlus output file paths (EnergyPlusSimulationOutputs).
pathlib.Path values are modelled as strings; pydantic coerces the wire
string into a Path. -/
structure EnergyPlusSimulationOutputs where
  eplusout_sql : Option String
  eplusout_err : Option String
  eplusout_csv : Option String
  eplusout_eso : Option String
deriving DecidableEq

def epSimOutputsKeys : List String :=
  ["eplusout_sql", "eplusout_err", "eplusout_csv", "eplusout_eso"]

/-- The default EnergyPlusSimulationOutputs (all fields None). -/
def EnergyPlusSimulationOutputs.default : EnergyPlusSimulationOutputs :=
  ⟨none, none, none, none⟩

/-- Decode an EnergyPlusSimulationOutputs; extra="forbid"; all optional. -/
def decodeEPSimulationOutputs (j : Json) : Option EnergyPlusSimulationOutputs :=
  match j with
  | .obj o =>
    if keysSubset o epSimOutputsKeys then do
      let s ← opt asStr (lookupJ o "eplusout_sql")
      let e ← opt asStr (lookupJ o "eplusout_err")
      let c ← opt asStr (lookupJ o "eplusout_csv")
      let o2 ← opt asStr (lookupJ o "eplusout_eso")
      pure ⟨s, e, c, o2⟩
    else none
  | _ => none

/-- Extracted EnergyPlus simulation metrics (EnergyPlusSimulationMetrics):
every field is Optional and non-negative (NonNegFloat / NonNegInt). -/
structure EnergyPlusSimulationMetrics where
  site_electricity_kwh : Option ℚ
  site_natural_gas_kwh : Option ℚ
  site_district_cooling_kwh : Option ℚ
  site_district_heating_kwh : Option ℚ
  site_eui_kwh_m2 : Option ℚ
  heating_energy_kwh : Option ℚ
  cooling_energy_kwh : Option ℚ
  interior_lighting_kwh : Option ℚ
  fans_energy_kwh : Option ℚ
  pumps_energy_kwh : Option ℚ
  water_systems_kwh : Option ℚ
  unmet_heating_hours : Option ℚ
  unmet_cooling_hours : Option ℚ
  peak_electric_demand_w : Option ℚ
  floor_area_m2 : Option ℚ
  zone_count : Option ℤ
deriving DecidableEq

def epSimMetricsKeys : List String :=
  ["site_electricity_kwh", "site_natural_gas_kwh", "site_district_cooling_kwh",
   "site_district_heating_kwh", "site_eui_kwh_m2", "heating_energy_kwh",
   "cooling_energy_kwh", "interior_lighting_kwh", "fans_energy_kwh",
   "pumps_energy_kwh", "water_systems_kwh", "unmet_heating_hours",
   "unmet_cooling_hours", "peak_electric_demand_w", "floor_area_m2",
   "zone_count"]

/-- The default EnergyPlusSimulationMetrics (all fields None). -/
def EnergyPlusSimulationMetrics.default : EnergyPlusSimulationMetrics :=
  ⟨none, none, none, none, none, none, none, none,
   none, none, none, none, none, none, none, none⟩

/-- Decode an EnergyPlusSimulationMetrics; extra="forbid". -/
def decodeEPSimulationMetrics (j : Json) : Option EnergyPlusSimulationMetrics :=
  match j with
  | .obj o =>
    if keysSubset o epSimMetricsKeys then do
      let f1 ← opt asNonNegRat (lookupJ o "site_electricity_kwh")
      let f2 ← opt asNonNegRat (lookupJ o "site_natural_gas_kwh")
      let f3 ← opt asNonNegRat (lookupJ o "site_district_cooling_kwh")
      let f4 ← opt asNonNegRat (lookupJ o "site_district_heating_kwh")
      let f5 ← opt asNonNegRat (lookupJ o "site_eui_kwh_m2")
      let f6 ← opt asNonNegRat (lookupJ o "heating_energy_kwh")
      let f7 ← opt asNonNegRat (lookupJ o "cooling_energy_kwh")
      let f8 ← opt asNonNegRat (lookupJ o "interior_lighting_kwh")
      let f9 ← opt asNonNegRat (lookupJ o "fans_energy_kwh")
      let f10 ← opt asNonNegRat (lookupJ o "pumps_energy_kwh")
      let f11 ← opt asNonNegRat (lookupJ o "water_systems_kwh")
      let f12 ← opt asNonNegRat (lookupJ o "unmet_heating_hours")
      let f13 ← opt asNonNegRat (lookupJ o "unmet_cooling_hours")
      let f14 ← opt asNonNegRat (lookupJ o "peak_electric_demand_w")
      let f15 ← opt asNonNegRat (lookupJ o "floor_area_m2")
      let f16 ← opt asNonNegInt (lookupJ o "zone_count")
      pure ⟨f1, f2, f3, f4, f5, f6, f7, f8, f9, f10, f11, f12, f13, f14,
            f15, f16⟩
    else none
  | _ => none

/-- EnergyPlus execution logs (EnergyPlusSimulationLogs). -/
structure EnergyPlusSimulationLogs where
  stdout_tail : Option String
  stderr_tail : Option String
  err_tail : Option String
deriving DecidableEq

def epSimLogsKeys : List String := ["stdout_tail", "stderr_tail", "err_tail"]

/-- Decode an EnergyPlusSimulationLogs; extra="forbid". -/
def decodeEPSimulationLogs (j : Json) : Option EnergyPlusSimulationLogs :=
  match j with
  | .obj o =>
    if keysSubset o epSimLogsKeys then do
      let s ← opt asStr (lookupJ o "stdout_tail")
      let e ← opt asStr (lookupJ o "stderr_tail")
      let t ← opt asStr (lookupJ o "err_tail")
      pure ⟨s, e, t⟩
    else none
  | _ => none

/-- EnergyPlus simulation outputs and execution information
(EnergyPlusOutputs in energyplus/envelopes.py). -/
structure EnergyPlusOutputs where
  outputs : EnergyPlusSimulationOutputs
  metrics : EnergyPlusSimulationMetrics
  logs : Option EnergyPlusSimulationLogs
  energyplus_returncode : ℤ
  execution_seconds : ℚ
  invocation_mode : InvocationMode
deriving DecidableEq

def energyPlusOutputsKeys : List String :=
  ["outputs", "metrics", "logs", "energyplus_returncode",
   "execution_seconds", "invocation_mode"]

/-- Decode an EnergyPlusOutputs; extra="forbid"; outputs and metrics have
default factories, logs defaults to None, energyplus_returncode required
and unconstrained, execution_seconds ge=0 required, invocation_mode
required. -/
def decodeEnergyPlusOutputs (j : Json) : Option EnergyPlusOutputs :=
  match j with
  | .obj o =>
    if keysSubset o energyPlusOutputsKeys then do
      let outputs ← fieldD EnergyPlusSimulationOutputs.default
        decodeEPSimulationOutputs (lookupJ o "outputs")
      let metrics ← fieldD EnergyPlusSimulationMetrics.default
        decodeEPSimulationMetrics (lookupJ o "metrics")
      let logs ← opt decodeEPSimulationLogs (lookupJ o "logs")
      let energyplus_returncode ← req asInt (lookupJ o "energyplus_returncode")
      let execution_seconds ← req asNonNegRat (lookupJ o "execution_seconds")
      let invocation_mode ← req
        (fun v => (asStr v).bind invocationModeOfString)
        (lookupJ o "invocation_mode")
      pure ⟨outputs, metrics, logs, energyplus_returncode,
            execution_seconds, invocation_mode⟩
    else none
  | _ => none

/-! ## Output-side sub-entities (validations/envelopes.py) -/

/-- Location information for a validation message (MessageLocation). -/
structure MessageLocation where
  file_role : Option String
  line : Option ℤ
  column : Option ℤ
  path : Option String
deriving DecidableEq

def messageLocationKeys : List String := ["file_role", "line", "column", "path"]

/-- Decode a MessageLocation; extra="forbid"; all fields optional. -/
def decodeMessageLocation (j : Json) : Option MessageLocation :=
  match j with
  | .obj o =>
    if keysSubset o messageLocationKeys then do
      let file_role ← opt asStr (lookupJ o "file_role")
      let line ← opt asInt (lookupJ o "line")
      let column ← opt asInt (lookupJ o "column")
      let path ← opt asStr (lookupJ o "path")
      pure ⟨file_role, line, column, path⟩
    else none
  | _ => none

/-- A validation finding, warning, or error (ValidationMessage). -/
structure ValidationMessage where
  severity : Severity
  code : Option String
  text : String
  location : Option MessageLocation
  tags : List String
deriving DecidableEq

def validationMessageKeys : List String :=
  ["severity", "code", "text", "location", "tags"]

/-- Decode a ValidationMessage; extra="forbid"; severity and text
required; code and location optional; tags default []. -/
def decodeValidationMessage (j : Json) : Option ValidationMessage :=
  match j with
  | .obj o =>
    if keysSubset o validationMessageKeys then do
      let severity ← req (fun v => (asStr v).bind severityOfString)
        (lookupJ o "severity")
      let code ← opt asStr (lookupJ o "code")
      let text ← req asStr (lookupJ o "text")
      let location ← opt decodeMessageLocation (lookupJ o "location")
      let tags ← fieldD [] (asList asStr) (lookupJ o "tags")
      pure ⟨severity, code, text, location, tags⟩
    else none
  | _ => none

/-- The value slot of a ValidationMetric (float | int | str). -/
inductive MetricValue where
  | num (q : ℚ)
  | str (s : String)
deriving DecidableEq

/-- Decode the float | int | str union of ValidationMetric.value. -/
def asMetricValue : Json → Option MetricValue
  | .num q => some (.num q)
  | .str s => some (.str s)
  | _ => none

/-- A computed metric from the validation/simulation (ValidationMetric). -/
structure ValidationMetric where
  name : String
  value : MetricValue
  unit : Option String
  category : Option String
  tags : List String
deriving DecidableEq

def validationMetricKeys : List String :=
  ["name", "value", "unit", "category", "tags"]

/-- Decode a ValidationMetric; extra="forbid". -/
def decodeValidationMetric (j : Json) : Option ValidationMetric :=
  match j with
  | .obj o =>
    if keysSubset o validationMetricKeys then do
      let name ← req asStr (lookupJ o "name")
      let value ← req asMetricValue (lookupJ o "value")
      let unit ← opt asStr (lookupJ o "unit")
      let category ← opt asStr (lookupJ o "category")
      let tags ← fieldD [] (asList asStr) (lookupJ o "tags")
      pure ⟨name, value, unit, category, tags⟩
    else none
  | _ => none

/-- A file artifact produced by the validator (ValidationArtifact). -/
structure ValidationArtifact where
  name : String
  type : String
  mime_type : Option String
  uri : String
  size_bytes : Option ℤ
deriving DecidableEq

def validationArtifactKeys : List String :=
  ["name", "type", "mime_type", "uri", "size_bytes"]

/-- Decode a ValidationArtifact; extra="forbid". -/
def decodeValidationArtifact (j : Json) : Option ValidationArtifact :=
  match j with
  | .obj o =>
    if keysSubset o validationArtifactKeys then do
      let name ← req asStr (lookupJ o "name")
      let type ← req asStr (lookupJ o "type")
      let mime_type ← opt asStr (lookupJ o "mime_type")
      let uri ← req asStr (lookupJ o "uri")
      let size_bytes ← opt asInt (lookupJ o "size_bytes")
      pure ⟨name, type, mime_type, uri, size_bytes⟩
    else none
  | _ => none

/-- Information about raw output files (RawOutputs); the format field is
the literal "directory" or "archive"; true models "directory" and false
models "archive". -/
structure RawOutputs where
  format : Bool
  manifest_uri : String
deriving DecidableEq

/-- Decode the format literal of RawOutputs. -/
def rawOutputsFormatOfString (s : String) : Option Bool :=
  if s = "directory" then some true
  else if s = "archive" then some false
  else none

def rawOutputsKeys : List String := ["format", "manifest_uri"]

/-- Decode a RawOutputs; extra="forbid"; both fields required. -/
def decodeRawOutputs (j : Json) : Option RawOutputs :=
  match j with
  | .obj o =>
    if keysSubset o rawOutputsKeys then do
      let format ← req (fun v => (asStr v).bind rawOutputsFormatOfString)
        (lookupJ o "format")
      let manifest_uri ← req asStr (lookupJ o "manifest_uri")
      pure ⟨format, manifest_uri⟩
    else none
  | _ => none

/-- Timing information for the validation run (ValidationTiming).
datetime parsing is done by the external pydantic library; timestamps
are modelled as optional strings. -/
structure ValidationTiming where
  queued_at : Option String
  started_at : Option String
  finished_at : Option String
deriving DecidableEq

def validationTimingKeys : List String :=
  ["queued_at", "started_at", "finished_at"]

/-- Decode a ValidationTiming; extra="forbid"; all fields optional. -/
def decodeValidationTiming (j : Json) : Option ValidationTiming :=
  match j with
  | .obj o =>
    if keysSubset o validationTimingKeys then do
      let q ← opt asStr (lookupJ o "queued_at")
      let s ← opt asStr (lookupJ o "started_at")
      let f ← opt asStr (lookupJ o "finished_at")
      pure ⟨q, s, f⟩
    else none
  | _ => none

/-! ## Output envelopes -/

/-- The base-envelope fields shared by ValidationOutputEnvelope and every
family output envelope, except the family-narrowed outputs slot. -/
structure OutputEnvelopeCommon where
  schema_version : String
  run_id : String
  validator : ValidatorInfo
  status : ValidationStatus
  timing : ValidationTiming
  messages : List ValidationMessage
  metrics : List ValidationMetric
  artifacts : List ValidationArtifact
  raw_outputs : Option RawOutputs
deriving DecidableEq

def outputEnvelopeKeys : List String :=
  ["schema_version", "run_id", "validator", "status", "timing",
   "messages", "metrics", "artifacts", "raw_outputs", "outputs"]

/-- schema_version: Literal["validibot.output.v1"] = "validibot.output.v1". -/
def outputSchemaVersionField : Option Json → Option String :=
  fieldD "validibot.output.v1"
    (fun j => (asStr j).bind
      (fun s => if s = "validibot.output.v1" then some s else none))

/-- Decode every base field of an output envelope except the outputs
slot. The extra="forbid" key check is done by each envelope decoder. -/
def decodeOutputCommon (o : List (String × Json)) : Option OutputEnvelopeCommon := do
  let schema_version ← outputSchemaVersionField (lookupJ o "schema_version")
  let run_id ← req asStr (lookupJ o "run_id")
  let validator ← req decodeValidatorInfo (lookupJ o "validator")
  let status ← req (fun v => (asStr v).bind validationStatusOfString)
    (lookupJ o "status")
  let timing ← req decodeValidationTiming (lookupJ o "timing")
  let messages ← fieldD [] (asList decodeValidationMessage)
    (lookupJ o "messages")
  let metrics ← fieldD [] (asList decodeValidationMetric)
    (lookupJ o "metrics")
  let artifacts ← fieldD [] (asList decodeValidationArtifact)
    (lookupJ o "artifacts")
  let raw_outputs ← opt decodeRawOutputs (lookupJ o "raw_outputs")
  pure ⟨schema_version, run_id, validator, status, timing,
        messages, metrics, artifacts, raw_outputs⟩

/-- Base output envelope (ValidationOutputEnvelope): the outputs slot is
an open map or null, dict[str, Any] | None, defaulting to None. -/
structure ValidationOutputEnvelope where
  base : OutputEnvelopeCommon
  outputs : Option (List (String × Json))

/-- Decode a ValidationOutputEnvelope; model_config extra="forbid". -/
def decodeValidationOutputEnvelope (j : Json) : Option ValidationOutputEnvelope :=
  match j with
  | .obj o =>
    if keysSubset o outputEnvelopeKeys then do
      let base ← decodeOutputCommon o
      let outputs ← opt asObjMap (lookupJ o "outputs")
      pure ⟨base, outputs⟩
    else none
  | _ => none

/-- Output envelope from FMI validator containers (FMIOutputEnvelope):
narrows the outputs slot to FMIOutputs | None with default None, so
outputs can be absent or null for failure cases. -/
structure FMIOutputEnvelope where
  base : OutputEnvelopeCommon
  outputs : Option FMIOutputs

/-- Decode an FMIOutputEnvelope; inherits extra="forbid". -/
def decodeFMIOutputEnvelope (j : Json) : Option FMIOutputEnvelope :=
  match j with
  | .obj o =>
    if keysSubset o outputEnvelopeKeys then do
      let base ← decodeOutputCommon o
      let outputs ← opt decodeFMIOutputs (lookupJ o "outputs")
      pure ⟨base, outputs⟩
    else none
  | _ => none

/-- EnergyPlus-specific output envelope (EnergyPlusOutputEnvelope):
narrows the outputs slot to EnergyPlusOutputs with no default, so it is
a required field and null is not a valid value for it. -/
structure EnergyPlusOutputEnvelope where
  base : OutputEnvelopeCommon
  outputs : EnergyPlusOutputs

/-- Decode an EnergyPlusOutputEnvelope; inherits extra="forbid". -/
def decodeEnergyPlusOutputEnvelope (j : Json) : Option EnergyPlusOutputEnvelope :=
  match j with
  | .obj o =>
    if keysSubset o outputEnvelopeKeys then do
      let base ← decodeOutputCommon o
      let outputs ← req decodeEnergyPlusOutputs (lookupJ o "outputs")
      pure ⟨base, outputs⟩
    else none
  | _ => none

/-! ## FMI probe result models (fmi/models.py) -/

/-- Metadata extracted from modelDescription.xml (FMIVariableMeta). -/
structure FMIVariableMeta where
  name : String
  causality : String
  variability : Option String
  value_reference : ℤ
  value_type : String
  unit : Option String
deriving DecidableEq

def fmiVariableMetaKeys : List String :=
  ["name", "causality", "variability", "value_reference", "value_type", "unit"]

/-- Decode an FMIVariableMeta; model_config ConfigDict(extra="forbid");
name, causality and value_type required; variability and unit optional;
value_reference defaults to 0. -/
def decodeFMIVariableMeta (j : Json) : Option FMIVariableMeta :=
  match j with
  | .obj o =>
    if keysSubset o fmiVariableMetaKeys then do
      let name ← req asStr (lookupJ o "name")
      let causality ← req asStr (lookupJ o "causality")
      let variability ← opt asStr (lookupJ o "variability")
      let value_reference ← fieldD 0 asInt (lookupJ o "value_reference")
      let value_type ← req asStr (lookupJ o "value_type")
      let unit ← opt asStr (lookupJ o "unit")
      pure ⟨name, causality, variability, value_reference, value_type, unit⟩
    else none
  | _ => none

/-- The status literal of an FMIProbeResult: "success" or "error". -/
inductive ProbeStatus where
  | success
  | error
deriving DecidableEq

/-- Decode a ProbeStatus from its wire string. -/
def probeStatusOfString (s : String) : Option ProbeStatus :=
  if s = "success" then some .success
  else if s = "error" then some .error
  else none

/-- Result of a short probe run to vet an FMU before approval
(FMIProbeResult). It is an ordinary pydantic model: every field can be
set by the validating constructor or by decoding a document, in addition
to the success/failure classmethod factories. -/
structure FMIProbeResult where
  status : ProbeStatus
  «variables» : List FMIVariableMeta
  errors : List String
  messages : List String
  execution_seconds : Option ℚ
deriving DecidableEq

def fmiProbeResultKeys : List String :=
  ["status", "variables", "errors", "messages", "execution_seconds"]

/-- Decode an FMIProbeResult; model_config ConfigDict(extra="forbid");
status defaults to "error"; variables, errors and messages default to [];
execution_seconds defaults to None. This is the free-form construction
path (pydantic generates it for every model). -/
def decodeFMIProbeResult (j : Json) : Option FMIProbeResult :=
  match j with
  | .obj o =>
    if keysSubset o fmiProbeResultKeys then do
      let status ← fieldD ProbeStatus.error
        (fun v => (asStr v).bind probeStatusOfString) (lookupJ o "status")
      let vars ← fieldD [] (asList decodeFMIVariableMeta)
        (lookupJ o "variables")
      let errors ← fieldD [] (asList asStr) (lookupJ o "errors")
      let messages ← fieldD [] (asList asStr) (lookupJ o "messages")
      let execution_seconds ← opt asRat (lookupJ o "execution_seconds")
      pure ⟨status, vars, errors, messages, execution_seconds⟩
    else none
  | _ => none

/-- FMIProbeResult.success classmethod: builds a result with
status="success", the given variables, empty errors, and
messages or [] when messages is None. -/
def FMIProbeResult.success («variables» : List FMIVariableMeta)
    (execution_seconds : Option ℚ)
    (messages : Option (List String)) : FMIProbeResult :=
  ⟨ProbeStatus.success, «variables», [], messages.getD [], execution_seconds⟩

/-- FMIProbeResult.failure classmethod: builds a result with
status="error", empty variables, the given errors, and
messages or [] when messages is None. -/
def FMIProbeResult.failure (errors : List String)
    (messages : Option (List String)) : FMIProbeResult :=
  ⟨ProbeStatus.error, [], errors, messages.getD [], none⟩

/-! ## build_fmi_input_envelope (fmi/envelopes.py) -/

/-- The Validator-like argument of build_fmi_input_envelope: an object
with id, validation_type and version attributes. -/
structure ValidatorLike where
  id : String
  validation_type : ValidatorType
  version : String

/-- Build an FMIInputEnvelope from Django validation data
(build_fmi_input_envelope). The single input file is the FMU, with
name "model.fmu", the FMU MIME type and role "fmu"; inputs compose the
given input_values, the given or default simulation config, and the
given or empty output_variables; the context carries the callback URL
and execution bundle URI with all other fields defaulted. -/
def build_fmi_input_envelope
    (run_id : String) (validator : ValidatorLike)
    (org_id org_name workflow_id step_id : String)
    (step_name : Option String)
    (fmu_uri : String) (input_values : List (String × Json))
    (callback_url : String) (execution_bundle_uri : String)
    (simulation : Option FMISimulationConfig)
    (output_variables : Option (List String)) : FMIInputEnvelope :=
  { base :=
      { schema_version := "validibot.input.v1"
        run_id := run_id
        validator :=
          ⟨validator.id, validator.validation_type, validator.version⟩
        org := ⟨org_id, org_name⟩
        workflow := ⟨workflow_id, step_id, step_name⟩
        input_files :=
          [⟨"model.fmu", SupportedMimeType.FMU, some "fmu", fmu_uri⟩]
        resource_files := []
        context :=
          ⟨none, some callback_url, false, execution_bundle_uri, 3600, []⟩ }
    inputs :=
      ⟨input_values, simulation.getD FMISimulationConfig.default,
       output_variables.getD []⟩ }

/-! ## Concrete documents used by the claim theorems -/

/-- A probe-result document that pairs status "success" with a non-empty
errors list. -/
def inconsistentProbeDoc : Json :=
  .obj [("status", .str "success"), ("errors", .arr [.str "boom"])]

/-- The probe result decoded from inconsistentProbeDoc. -/
def inconsistentProbeResult : FMIProbeResult :=
  ⟨.success, [], ["boom"], [], none⟩

/-- A minimal valid output-envelope document with no outputs field. -/
def outDocBase : List (String × Json) :=
  [("run_id", .str "run-9"),
   ("validator", .obj [("id", .str "val-1"), ("type", .str "ENERGYPLUS"),
                       ("version", .str "1.0")]),
   ("status", .str "success"),
   ("timing", .obj [])]

/-- The base fields decoded from outDocBase. -/
def outCommonVal : OutputEnvelopeCommon :=
  ⟨"validibot.output.v1", "run-9", ⟨"val-1", .ENERGYPLUS, "1.0"⟩, .SUCCESS,
   ⟨none, none, none⟩, [], [], [], none⟩

/-- outDocBase with its status replaced by a string outside the enum. -/
def outDocBadStatus : List (String × Json) :=
  [("run_id", .str "run-9"),
   ("validator", .obj [("id", .str "val-1"), ("type", .str "ENERGYPLUS"),
                       ("version", .str "1.0")]),
   ("status", .str "bad-status"),
   ("timing", .obj [])]

/-- A minimal valid input-envelope document with schema_version and
inputs both omitted. -/
def inDocW : List (String × Json) :=
  [("run_id", .str "run-42"),
   ("validator", .obj [("id", .str "val-1"), ("type", .str "ENERGYPLUS"),
                       ("version", .str "1.0")]),
   ("org", .obj [("id", .str "org-1"), ("name", .str "ValidiBot")]),
   ("workflow", .obj [("id", .str "wf-1"), ("step_id", .str "step-1")]),
   ("context", .obj [("execution_bundle_uri", .str "gs://bucket/run-42/")])]

/-- The envelope decoded from inDocW. -/
def inEnvW : ValidationInputEnvelope :=
  ⟨⟨"validibot.input.v1", "run-42", ⟨"val-1", .ENERGYPLUS, "1.0"⟩,
    ⟨"org-1", "ValidiBot"⟩, ⟨"wf-1", "step-1", none⟩, [], [],
    ⟨none, none, false, "gs://bucket/run-42/", 3600, []⟩⟩, []⟩

/-! ## Claim theorems -/

/-- Claim C1, counterexample: decoding an FMISimulationConfig,
FMIInputs or FMIOutputs-shaped document that contains the undeclared
field extra_field succeeds instead of being rejected, so not every
record in the family schemas rejects unknown fields. -/
theorem fmi_models_ignore_unknown_fields_cex :
    decodeFMISimulationConfig (.obj [("extra_field", .bool true)]) =
      some FMISimulationConfig.default ∧
    decodeFMIInputs (.obj [("extra_field", .bool true)]) =
      some ⟨[], FMISimulationConfig.default, []⟩ ∧
    decodeFMIOutputs (.obj [("extra_field", .bool true),
        ("execution_seconds", .num 1),
        ("simulation_time_reached", .num 2)]) =
      some ⟨[], none, none, none, 1, 2, none⟩ :=
  ⟨rfl, rfl, rfl⟩

/-- Claim C1, amended: records that declare extra="forbid" (the base
schema records such as InputFileItem and ValidationMessage, and the
EnergyPlus models such as EnergyPlusInputs) reject any unknown field,
while the FMI family configuration and results models
(FMISimulationConfig, FMIInputs, FMIOutputs) silently ignore unknown
fields because they carry no model_config. -/
theorem unknown_field_handling_by_model (k : String) (v : Json)
    (o : List (String × Json)) :
    (k ∉ inputFileItemKeys →
      decodeInputFileItem (.obj ((k, v) :: o)) = none) ∧
    (k ∉ validationMessageKeys →
      decodeValidationMessage (.obj ((k, v) :: o)) = none) ∧
    (k ∉ energyPlusInputsKeys →
      decodeEnergyPlusInputs (.obj ((k, v) :: o)) = none) ∧
    (k ∉ ["start_time", "stop_time", "step_size", "tolerance"] →
      decodeFMISimulationConfig (.obj ((k, v) :: o)) =
        decodeFMISimulationConfig (.obj o)) ∧
    (k ∉ ["input_values", "simulation", "output_variables"] →
      decodeFMIInputs (.obj ((k, v) :: o)) = decodeFMIInputs (.obj o)) ∧
    (k ∉ ["output_values", "fmu_guid", "fmi_version", "model_name",
          "execution_seconds", "simulation_time_reached", "fmu_log"] →
      decodeFMIOutputs (.obj ((k, v) :: o)) = decodeFMIOutputs (.obj o)) := by
  refine ⟨?_, ?_, ?_, ?_, ?_, ?_⟩
  · intro h
    have hc : inputFileItemKeys.contains k = false := by simpa using h
    have hfalse : keysSubset ((k, v) :: o) inputFileItemKeys = false := by
      simp only [keysSubset, List.all_cons]
      rw [hc]
      simp
    simp [decodeInputFileItem, hfalse]
  · intro h
    have hc : validationMessageKeys.contains k = false := by simpa using h
    have hfalse : keysSubset ((k, v) :: o) validationMessageKeys = false := by
      simp only [keysSubset, List.all_cons]
      rw [hc]
      simp
    simp [decodeValidationMessage, hfalse]
  · intro h
    have hc : energyPlusInputsKeys.contains k = false := by simpa using h
    have hfalse : keysSubset ((k, v) :: o) energyPlusInputsKeys = false := by
      simp only [keysSubset, List.all_cons]
      rw [hc]
      simp
    simp [decodeEnergyPlusInputs, hfalse]
  · intro h
    simp only [List.mem_cons, List.mem_singleton, not_or] at h
    obtain ⟨h1, h2, h3, h4⟩ := h
    simp [decodeFMISimulationConfig, lookupJ, h1, h2, h3, h4]
  · intro h
    simp only [List.mem_cons, List.mem_singleton, not_or] at h
    obtain ⟨h1, h2, h3⟩ := h
    simp [decodeFMIInputs, lookupJ, h1, h2, h3]
  · intro h
    simp only [List.mem_cons, List.mem_singleton, not_or] at h
    obtain ⟨h1, h2, h3, h4, h5, h6, h7⟩ := h
    simp [decodeFMIOutputs, lookupJ, h1, h2, h3, h4, h5, h6, h7]

/-- Witness for unknown_field_handling_by_model at the concrete unknown
field extra_field. -/
theorem unknown_field_handling_by_model_witness :
    decodeInputFileItem (.obj [("extra_field", .bool true)]) = none ∧
    decodeValidationMessage (.obj [("extra_field", .bool true)]) = none ∧
    decodeEnergyPlusInputs (.obj [("extra_field", .bool true)]) = none ∧
    decodeFMISimulationConfig (.obj [("extra_field", .bool true)]) =
      decodeFMISimulationConfig (.obj []) ∧
    decodeFMIInputs (.obj [("extra_field", .bool true)]) =
      decodeFMIInputs (.obj []) ∧
    decodeFMIOutputs (.obj [("extra_field", .bool true)]) =
      decodeFMIOutputs (.obj []) := by
  have h := unknown_field_handling_by_model "extra_field" (.bool true) []
  exact ⟨h.1 (by decide), h.2.1 (by decide), h.2.2.1 (by decide),
         h.2.2.2.1 (by decide), h.2.2.2.2.1 (by decide),
         h.2.2.2.2.2 (by decide)⟩

/-- Claim C2, counterexample: a document whose base fields are valid
(it decodes as a plain ValidationOutputEnvelope) but whose outputs
field is absent, or null, is rejected by the EnergyPlus family output
envelope, so outputs absent/null does not succeed for every family. -/
theorem energyplus_outputs_required_cex :
    decodeValidationOutputEnvelope (.obj outDocBase) =
      some ⟨outCommonVal, none⟩ ∧
    decodeEnergyPlusOutputEnvelope (.obj outDocBase) = none ∧
    decodeEnergyPlusOutputEnvelope
      (.obj (("outputs", Json.null) :: outDocBase)) = none :=
  ⟨rfl, rfl, rfl⟩

/-- Claim C2, amended: for any output document whose base fields decode
and whose keys are all declared, an absent or null outputs field
decodes successfully to None in the FMI output envelope, but the same
document is rejected by the EnergyPlus output envelope, whose outputs
field is required. -/
theorem outputs_absent_or_null_by_family (o : List (String × Json))
    (b : OutputEnvelopeCommon)
    (hk : keysSubset o outputEnvelopeKeys = true)
    (hb : decodeOutputCommon o = some b)
    (hout : lookupJ o "outputs" = none ∨ lookupJ o "outputs" = some Json.null) :
    decodeFMIOutputEnvelope (.obj o) = some ⟨b, none⟩ ∧
    decodeEnergyPlusOutputEnvelope (.obj o) = none := by
  rcases hout with hnone | hnull
  · constructor
    · simp [decodeFMIOutputEnvelope, hk, hb, hnone, opt, bind]
    · simp [decodeEnergyPlusOutputEnvelope, hk, hb, hnone, req, bind]
  · constructor
    · simp [decodeFMIOutputEnvelope, hk, hb, hnull, opt, bind]
    · simp [decodeEnergyPlusOutputEnvelope, hk, hb, hnull, req, bind,
        decodeEnergyPlusOutputs]

/-- Witness for outputs_absent_or_null_by_family at the concrete
document outDocBase. -/
theorem outputs_absent_or_null_by_family_witness :
    decodeFMIOutputEnvelope (.obj outDocBase) = some ⟨outCommonVal, none⟩ ∧
    decodeEnergyPlusOutputEnvelope (.obj outDocBase) = none :=
  outputs_absent_or_null_by_family outDocBase outCommonVal rfl rfl
    (Or.inl rfl)

/-- Claim C3, counterexample: a probe result whose status is "success"
and whose errors list is populated is constructible through the
validating constructor (decoding a document), so construction is not
limited to the two factory operations. -/
theorem probe_result_inconsistent_construction_cex :
    decodeFMIProbeResult inconsistentProbeDoc = some inconsistentProbeResult ∧
    inconsistentProbeResult.status = ProbeStatus.success ∧
    inconsistentProbeResult.errors ≠ [] :=
  ⟨rfl, rfl, by decide⟩

/-- Claim C3, amended: probe results built through the success and
failure factories are always consistent (success gives empty errors,
failure gives status error), but FMIProbeResult is an ordinary pydantic
model whose free-form constructor is also available and can produce a
value with status "success" and populated errors. -/
theorem probe_result_factories_consistent_model_open :
    (∀ (vs : List FMIVariableMeta) (es : Option ℚ)
        (ms : Option (List String)),
      (FMIProbeResult.success vs es ms).status = ProbeStatus.success ∧
      (FMIProbeResult.success vs es ms).errors = []) ∧
    (∀ (er : List String) (ms : Option (List String)),
      (FMIProbeResult.failure er ms).status = ProbeStatus.error) ∧
    decodeFMIProbeResult inconsistentProbeDoc = some inconsistentProbeResult :=
  ⟨fun _ _ _ => ⟨rfl, rfl⟩, fun _ _ => rfl, rfl⟩

/-- Claim C4, counterexample: FMIProbeResult.failure called with an
empty errors list returns a result whose errors list is empty, so
failure does not return a non-empty errors list for every argument
list. -/
theorem probe_failure_empty_errors_cex :
    (FMIProbeResult.failure [] none).errors = [] ∧
    (FMIProbeResult.failure [] none).status = ProbeStatus.error :=
  ⟨rfl, rfl⟩

/-- Claim C4, amended: success always returns status "success" with
empty errors, and failure always returns status "error" with empty
variables and errors equal to the given list, so the errors of a
failure result are non-empty exactly when the given list is. -/
theorem probe_factory_postconditions
    (vs : List FMIVariableMeta) (es : Option ℚ)
    (ms ms2 : Option (List String)) (er : List String) :
    (FMIProbeResult.success vs es ms).status = ProbeStatus.success ∧
    (FMIProbeResult.success vs es ms).errors = [] ∧
    (FMIProbeResult.failure er ms2).status = ProbeStatus.error ∧
    (FMIProbeResult.failure er ms2).«variables» = [] ∧
    (FMIProbeResult.failure er ms2).errors = er :=
  ⟨rfl, rfl, rfl, rfl, rfl⟩

/-- Claim C5: out-of-range numeric configuration fields are rejected
(timestep_per_hour outside [1, 60] including cadence 0, negative
start_time, non-positive stop_time, step_size and tolerance), and every
configuration value whose fields are in range round-trips unchanged
through encode followed by decode. -/
theorem family_config_ranges_and_roundtrip :
    (∀ n : ℤ, n < 1 ∨ 60 < n →
      decodeEnergyPlusInputs
        (.obj [("timestep_per_hour", .num (n : ℚ))]) = none) ∧
    (∀ q : ℚ, q < 0 →
      decodeFMISimulationConfig (.obj [("start_time", .num q)]) = none) ∧
    (∀ q : ℚ, q ≤ 0 →
      decodeFMISimulationConfig (.obj [("stop_time", .num q)]) = none) ∧
    (∀ q : ℚ, q ≤ 0 →
      decodeFMISimulationConfig (.obj [("step_size", .num q)]) = none) ∧
    (∀ q : ℚ, q ≤ 0 →
      decodeFMISimulationConfig (.obj [("tolerance", .num q)]) = none) ∧
    (∀ c : FMISimulationConfig, 0 ≤ c.start_time → 0 < c.stop_time →
      0 < c.step_size → (∀ t ∈ c.tolerance, 0 < t) →
      decodeFMISimulationConfig (encodeFMISimulationConfig c) = some c) ∧
    (∀ e : EnergyPlusInputs, 1 ≤ e.timestep_per_hour →
      e.timestep_per_hour ≤ 60 →
      decodeEnergyPlusInputs (encodeEnergyPlusInputs e) = some e) := by
  refine ⟨?_, ?_, ?_, ?_, ?_, ?_, ?_⟩
  · intro n h
    have hcond : ¬(1 ≤ n ∧ n ≤ 60) := by omega
    simp [decodeEnergyPlusInputs, keysSubset, energyPlusInputsKeys, lookupJ,
      fieldD, asTimestepPerHour, asInt, Rat.den_intCast, Rat.num_intCast,
      bind, hcond]
  · intro q h
    have hcond : ¬(0 ≤ q) := not_le.mpr h
    simp [decodeFMISimulationConfig, lookupJ, fieldD, asNonNegRat, bind, hcond]
  · intro q h
    have hcond : ¬(0 < q) := not_lt.mpr h
    simp [decodeFMISimulationConfig, lookupJ, fieldD, asPosRat, bind, hcond]
  · intro q h
    have hcond : ¬(0 < q) := not_lt.mpr h
    simp [decodeFMISimulationConfig, lookupJ, fieldD, asPosRat, opt, bind,
      hcond]
  · intro q h
    have hcond : ¬(0 < q) := not_lt.mpr h
    simp [decodeFMISimulationConfig, lookupJ, fieldD, asPosRat, opt, bind,
      hcond]
  · intro c h1 h2 h3 h4
    obtain ⟨st, sp, ss, tol⟩ := c
    simp only at h1 h2 h3
    cases tol with
    | none =>
      simp [encodeFMISimulationConfig, decodeFMISimulationConfig, lookupJ,
        fieldD, asNonNegRat, asPosRat, opt, bind, h1, h2, h3]
    | some t =>
      have ht : 0 < t := h4 t rfl
      simp [encodeFMISimulationConfig, decodeFMISimulationConfig, lookupJ,
        fieldD, asNonNegRat, asPosRat, opt, bind, h1, h2, h3, ht]
  · intro e h1 h2
    obtain ⟨ts, rpd, im⟩ := e
    simp only at h1 h2
    have hcond : 1 ≤ ts ∧ ts ≤ 60 := ⟨h1, h2⟩
    cases rpd with
    | none =>
      cases im <;>
      simp [encodeEnergyPlusInputs, decodeEnergyPlusInputs, keysSubset,
        energyPlusInputsKeys, lookupJ, fieldD, asTimestepPerHour, asInt,
        asStr, Rat.den_intCast, Rat.num_intCast, opt, bind, hcond,
        invocationModeToString, invocationModeOfString]
    | some n =>
      cases im <;>
      simp [encodeEnergyPlusInputs, decodeEnergyPlusInputs, keysSubset,
        energyPlusInputsKeys, lookupJ, fieldD, asTimestepPerHour, asInt,
        asStr, Rat.den_intCast, Rat.num_intCast, opt, bind, hcond,
        invocationModeToString, invocationModeOfString]

/-- Witness for family_config_ranges_and_roundtrip at concrete inputs:
cadence 0 and stop_time -1 rejected, and two in-range round trips. -/
theorem family_config_ranges_and_roundtrip_witness :
    decodeEnergyPlusInputs
      (.obj [("timestep_per_hour", .num ((0 : ℤ) : ℚ))]) = none ∧
    decodeFMISimulationConfig (.obj [("stop_time", .num (-1))]) = none ∧
    decodeFMISimulationConfig
      (encodeFMISimulationConfig ⟨0, 1, 1, some 2⟩) = some ⟨0, 1, 1, some 2⟩ ∧
    decodeEnergyPlusInputs (encodeEnergyPlusInputs ⟨4, none, .cli⟩) =
      some ⟨4, none, .cli⟩ := by
  have h := family_config_ranges_and_roundtrip
  exact ⟨h.1 0 (by decide), h.2.2.1 (-1) (by decide),
         h.2.2.2.2.2.1 ⟨0, 1, 1, some 2⟩ (by decide) (by decide) (by decide)
           (by decide),
         h.2.2.2.2.2.2 ⟨4, none, .cli⟩ (by decide) (by decide)⟩

/-- Claim C6: build_fmi_input_envelope called with output_variables
["y"], an FMU URI and no explicit simulation config produces an
envelope whose input_files list is exactly one entry with role "fmu"
and the given URI, and whose inputs.output_variables is ["y"]. -/
theorem build_fmi_input_envelope_single_fmu_file
    (run_id : String) (validator : ValidatorLike)
    (org_id org_name workflow_id step_id : String)
    (step_name : Option String) (fmu_uri : String)
    (input_values : List (String × Json))
    (callback_url execution_bundle_uri : String) :
    (build_fmi_input_envelope run_id validator org_id org_name workflow_id
        step_id step_name fmu_uri input_values callback_url
        execution_bundle_uri none (some ["y"])).base.input_files =
      [⟨"model.fmu", SupportedMimeType.FMU, some "fmu", fmu_uri⟩] ∧
    (build_fmi_input_envelope run_id validator org_id org_name workflow_id
        step_id step_name fmu_uri input_values callback_url
        execution_bundle_uri none (some ["y"])).inputs.output_variables =
      ["y"] :=
  ⟨rfl, rfl⟩

/-- Claim C7: in any validly decoded input envelope, an omitted
schema_version decodes to the literal "validibot.input.v1" and an
omitted inputs field decodes to the empty map. -/
theorem input_envelope_defaults (o : List (String × Json))
    (env : ValidationInputEnvelope)
    (h : decodeValidationInputEnvelope (.obj o) = some env) :
    (lookupJ o "schema_version" = none →
      env.base.schema_version = "validibot.input.v1") ∧
    (lookupJ o "inputs" = none → env.inputs = []) := by
  simp only [decodeValidationInputEnvelope] at h
  split at h
  · simp only [decodeInputCommon, bind, Option.bind_eq_some, Option.pure_def,
      Option.some.injEq] at h
    obtain ⟨base, ⟨sv, hsv, rid, hrid, v, hv, og, hog, wf, hwf, fi, hfi,
      rf, hrf, cx, hcx, hbase⟩, inp, hinp, henv⟩ := h
    constructor
    · intro hnone
      rw [hnone] at hsv
      simp only [inputSchemaVersionField, fieldD, Option.some.injEq] at hsv
      subst henv hbase hsv
      rfl
    · intro hnone
      rw [hnone] at hinp
      simp only [fieldD, Option.some.injEq] at hinp
      subst henv hinp
      rfl
  · exact absurd h (by simp)

/-- Witness for input_envelope_defaults at the concrete document inDocW,
which omits both schema_version and inputs. -/
theorem input_envelope_defaults_witness :
    decodeValidationInputEnvelope (.obj inDocW) = some inEnvW ∧
    inEnvW.base.schema_version = "validibot.input.v1" ∧
    inEnvW.inputs = [] :=
  ⟨rfl, (input_envelope_defaults inDocW inEnvW rfl).1 rfl,
   (input_envelope_defaults inDocW inEnvW rfl).2 rfl⟩

/-- Claim C8: the output status enum decodes exactly the four strings
success, failed_validation, failed_runtime and cancelled, and the
message severity enum decodes exactly INFO, WARNING and ERROR; and
concretely a message with severity "fatal" and an output envelope with
status "bad-status" are rejected. -/
theorem status_severity_closed_enums :
    (∀ s : String,
      ((validationStatusOfString s).isSome ↔
        (s = "success" ∨ s = "failed_validation" ∨ s = "failed_runtime" ∨
         s = "cancelled")) ∧
      ((severityOfString s).isSome ↔
        (s = "INFO" ∨ s = "WARNING" ∨ s = "ERROR"))) ∧
    decodeValidationMessage
      (.obj [("severity", .str "fatal"), ("text", .str "not allowed")]) =
      none ∧
    decodeValidationOutputEnvelope (.obj outDocBadStatus) = none := by
  refine ⟨fun s => ⟨?_, ?_⟩, rfl, rfl⟩
  · unfold validationStatusOfString
    split_ifs <;> simp_all
  · unfold severityOfString
    split_ifs <;> simp_all

/-- Claim C9: ExecutionContext.timeout_seconds and
EnergyPlusInputs.run_period_days carry no range constraint: every
integer, including zero and negative values, is accepted and stored
unchanged. -/
theorem unconstrained_int_fields_accept_any_integer (n : ℤ) :
    decodeExecutionContext
      (.obj [("execution_bundle_uri", .str "gs://bucket/run-1/"),
             ("timeout_seconds", .num (n : ℚ))]) =
      some ⟨none, none, false, "gs://bucket/run-1/", n, []⟩ ∧
    decodeEnergyPlusInputs (.obj [("run_period_days", .num (n : ℚ))]) =
      some ⟨4, some n, .cli⟩ := by
  constructor
  · simp [decodeExecutionContext, keysSubset, executionContextKeys, lookupJ,
      fieldD, opt, req, asStr, asInt, Rat.den_intCast, Rat.num_intCast, bind]
  · simp [decodeEnergyPlusInputs, keysSubset, energyPlusInputsKeys, lookupJ,
      fieldD, opt, asInt, Rat.den_intCast, Rat.num_intCast, bind]

/-- Claim C10: an FMIProbeResult decoded from an empty document (all
fields defaulted, the same as construction with no arguments) has
status "error", empty variables, errors and messages, and null
execution_seconds. -/
theorem probe_result_default_is_error_state :
    decodeFMIProbeResult (.obj []) =
      some ⟨ProbeStatus.error, [], [], [], none⟩ :=
  rfl
